import Mathlib

/-!
Verification development for the `keystone` python-services HTTP service
(`src/packages/python-services/src/main.py`).

The service exposes three handlers: `root` (`GET /`), `health_check`
(`GET /health`) and `calculate` (`GET /api/calculate`).  Handlers return
JSON objects, modelled here as ordered key-value lists over a JSON-like
value type.  Python `float` values are modelled exactly: the main model
uses `ℚ`, and a second numeric carrier `SFloat` (rationals with a signed
zero) captures the IEEE-754 fact that `-0.0 == 0` under Python's `==`.
Python exceptions (`ZeroDivisionError` from `/`) are modelled with
`Except String`, so "the handler never raises" is a provable statement.
-/

set_option autoImplicit false

namespace Keystone

/-- A JSON-like value over a numeric carrier `F`: `None`, a number, or a
string. -/
inductive JVal (F : Type) where
  | null : JVal F
  | num (x : F) : JVal F
  | str (s : String) : JVal F
deriving DecidableEq

/-- A JSON object: an ordered list of key-value pairs, as returned by the
FastAPI handlers (Python dict literals). -/
abbrev JObj (F : Type) := List (String × JVal F)

/-- The arithmetic interface of a Python `float` carrier: the four binary
operations and the boolean test `x == 0` (Python float equality). -/
class PyNum (F : Type) where
  add : F → F → F
  sub : F → F → F
  mul : F → F → F
  div : F → F → F
  eqZero : F → Bool

/-- Python float division `a / b`: raises `ZeroDivisionError` when the
divisor compares equal to zero, otherwise returns the quotient. -/
def pyDiv {F : Type} [PyNum F] (a b : F) : Except String F :=
  if PyNum.eqZero b then Except.error "ZeroDivisionError" else Except.ok (PyNum.div a b)

/-- The `"divide"` entry of the `operations` dict in `calculate`:
`a / b if b != 0 else None`.  The division is evaluated only under the
`b != 0` guard. -/
def divideCandidate {F : Type} [PyNum F] (a b : F) : Except String (Option F) :=
  if PyNum.eqZero b = false then Except.map Option.some (pyDiv a b) else Except.ok Option.none

/-- The `operations` dict built eagerly by `calculate`: one candidate per
known operation, where the `"divide"` candidate is `None` when `b == 0`. -/
def candidates {F : Type} [PyNum F] (a b : F) : Except String (List (String × Option F)) :=
  Except.map
    (fun dc =>
      [("add", some (PyNum.add a b)), ("subtract", some (PyNum.sub a b)),
       ("multiply", some (PyNum.mul a b)), ("divide", dc)])
    (divideCandidate a b)

/-- The `GET /api/calculate` handler.  Builds the `operations` dict, looks
up the requested operation (`operations.get(operation)`, `None` on a
missing key), returns the `{"error": "Division by zero"}` payload when the
selected candidate is `None` with `operation == "divide"` and `b == 0`,
and otherwise echoes `a`, `b`, `operation` and the (possibly `None`)
`result`.  The query parameter `operation` defaults to `"add"`. -/
def calculate {F : Type} [PyNum F] [DecidableEq F] (a b : F)
    (operation : String := "add") : Except String (JObj F) :=
  Except.bind (candidates a b) fun operations =>
    let result : Option F := Option.join (operations.lookup operation)
    if result = none ∧ operation = "divide" ∧ PyNum.eqZero b = true then
      Except.ok [("error", JVal.str "Division by zero")]
    else
      Except.ok [("a", JVal.num a), ("b", JVal.num b), ("operation", JVal.str operation),
        ("result", match result with | some r => JVal.num r | none => JVal.null)]

/-- The `GET /` handler: a static payload. -/
def root (F : Type) : JObj F :=
  [("service", JVal.str "python-services"), ("status", JVal.str "operational")]

/-- The `GET /health` handler: a static payload. -/
def health_check (F : Type) : JObj F :=
  [("status", JVal.str "healthy"), ("service", JVal.str "python-services")]

/-- The CORS `allow_origins` list passed to `app.add_middleware`. -/
def allow_origins : List String :=
  ["http://localhost:3000", "http://localhost:5173", "http://localhost:5174"]

/-- The CORS `allow_credentials` flag passed to `app.add_middleware`. -/
def allow_credentials : Bool := true

/-- The CORS `allow_methods` list passed to `app.add_middleware`. -/
def allow_methods : List String := ["*"]

/-- The CORS `allow_headers` list passed to `app.add_middleware`. -/
def allow_headers : List String := ["*"]

/-- Modelled from the spec: the `CORSMiddleware` itself is FastAPI
framework code, not part of this repository's sources; per the spec it
grants permissive CORS headers (credentials allowed, all methods and
headers) exactly to requests whose origin is in the configured
`allow_origins` list, uniformly for all routes. -/
def corsPermissive (origin : String) : Bool := allow_origins.contains origin

/-- The main model instantiates the float carrier at `ℚ`: Python float
arithmetic taken exact, with `x == 0` deciding equality with zero. -/
instance ratPyNum : PyNum ℚ where
  add x y := x + y
  sub x y := x - y
  mul x y := x * y
  div x y := x / y
  eqZero x := x == 0

/-- Exact-rational model of an IEEE-754 double retaining the signed-zero
distinction: `q` is the exact value and `negZero` marks the value `-0.0`
(meaningful only when `q = 0`).  Python's `==` ignores the sign of zero,
so `SFloat.eqZero` tests only `q = 0`; the arithmetic follows the
IEEE-754 sign-of-zero rules on exact results. -/
structure SFloat where
  q : ℚ
  negZero : Bool
deriving DecidableEq

/-- Whether an `SFloat` carries a negative sign (negative value or `-0.0`). -/
def SFloat.isNeg (x : SFloat) : Bool :=
  decide (x.q < 0) || (decide (x.q = 0) && x.negZero)

instance sfloatPyNum : PyNum SFloat where
  add x y := ⟨x.q + y.q, decide (x.q + y.q = 0) && x.negZero && y.negZero⟩
  sub x y := ⟨x.q - y.q, decide (x.q - y.q = 0) && x.negZero && (decide (y.q = 0) && !y.negZero)⟩
  mul x y := ⟨x.q * y.q, decide (x.q * y.q = 0) && (x.isNeg != y.isNeg)⟩
  div x y := ⟨x.q / y.q, decide (x.q / y.q = 0) && (x.isNeg != y.isNeg)⟩
  eqZero x := decide (x.q = 0)

/-- The value `-0.0` in the signed-zero model. -/
def negZeroF : SFloat := ⟨0, true⟩

/-- The value `0.0` in the signed-zero model. -/
def posZeroF : SFloat := ⟨0, false⟩

instance exceptDecEq {ε α : Type} [DecidableEq ε] [DecidableEq α] : DecidableEq (Except ε α) :=
  fun x y =>
    match x, y with
    | Except.error e, Except.error f =>
      if h : e = f then Decidable.isTrue (by rw [h])
      else Decidable.isFalse (fun c => h (by injection c))
    | Except.error _, Except.ok _ => Decidable.isFalse (fun c => Except.noConfusion c)
    | Except.ok _, Except.error _ => Decidable.isFalse (fun c => Except.noConfusion c)
    | Except.ok a, Except.ok b =>
      if h : a = b then Decidable.isTrue (by rw [h])
      else Decidable.isFalse (fun c => h (by injection c))

theorem eqZero_rat (x : ℚ) : PyNum.eqZero x = (x == 0) := rfl

theorem add_rat (x y : ℚ) : PyNum.add x y = x + y := rfl

theorem sub_rat (x y : ℚ) : PyNum.sub x y = x - y := rfl

theorem mul_rat (x y : ℚ) : PyNum.mul x y = x * y := rfl

theorem div_rat (x y : ℚ) : PyNum.div x y = x / y := rfl

example : calculate (2 : ℚ) 3 "add" =
    Except.ok [("a", JVal.num 2), ("b", JVal.num 3), ("operation", JVal.str "add"),
      ("result", JVal.num (2 + 3))] := rfl

example : calculate (2 : ℚ) 3 "add" =
    Except.ok [("a", JVal.num 2), ("b", JVal.num 3), ("operation", JVal.str "add"),
      ("result", JVal.num 5)] := by
  have h : calculate (2 : ℚ) 3 "add" =
      Except.ok [("a", JVal.num 2), ("b", JVal.num 3), ("operation", JVal.str "add"),
        ("result", JVal.num (2 + 3))] := rfl
  rw [h]; norm_num

example : calculate (5 : ℚ) 0 "divide" =
    Except.ok [("error", JVal.str "Division by zero")] := rfl

example : calculate (10 : ℚ) 2 "divide" =
    Except.ok [("a", JVal.num 10), ("b", JVal.num 2), ("operation", JVal.str "divide"),
      ("result", JVal.num (10 / 2))] := rfl

example : calculate (7 : ℚ) 2 =
    Except.ok [("a", JVal.num 7), ("b", JVal.num 2), ("operation", JVal.str "add"),
      ("result", JVal.num (7 + 2))] := rfl

example : calculate (1 : ℚ) 2 "modulo" =
    Except.ok [("a", JVal.num 1), ("b", JVal.num 2), ("operation", JVal.str "modulo"),
      ("result", JVal.null)] := rfl

theorem except_bind_ok {ε α β : Type} (x : α) (f : α → Except ε β) :
    Except.bind (Except.ok x) f = f x := rfl

/-- The value of the `operations` dict in the rational model, with the
`b == 0` test written as `b = 0`. -/
def opsListQ (a b : ℚ) : List (String × Option ℚ) :=
  [("add", some (a + b)), ("subtract", some (a - b)), ("multiply", some (a * b)),
   ("divide", if b = 0 then none else some (a / b))]

theorem candidates_eq (a b : ℚ) : candidates a b = Except.ok (opsListQ a b) := by
  by_cases hb : b = 0
  · simp [candidates, divideCandidate, pyDiv, eqZero_rat, opsListQ, hb,
      add_rat, sub_rat, mul_rat, div_rat, Except.map]
  · simp [candidates, divideCandidate, pyDiv, eqZero_rat, opsListQ, hb,
      add_rat, sub_rat, mul_rat, div_rat, Except.map]

/-- Closed form of the `calculate` handler over `ℚ`. -/
theorem calculate_eq (a b : ℚ) (op : String) :
    calculate a b op =
      if Option.join (List.lookup op (opsListQ a b)) = none ∧ op = "divide" ∧ b = 0 then
        Except.ok [("error", JVal.str "Division by zero")]
      else
        Except.ok [("a", JVal.num a), ("b", JVal.num b), ("operation", JVal.str op),
          ("result",
            match Option.join (List.lookup op (opsListQ a b)) with
            | some r => JVal.num r
            | none => JVal.null)] := by
  simp only [calculate, candidates_eq, except_bind_ok, eqZero_rat, beq_iff_eq]
  by_cases hc : Option.join (List.lookup op (opsListQ a b)) = none ∧ op = "divide" ∧ b = 0
  · rw [if_pos hc, if_pos hc]
  · rw [if_neg hc, if_neg hc]
    cases hj : Option.join (List.lookup op (opsListQ a b)) <;> rfl


theorem calc_add_eq (a b : ℚ) :
    calculate a b "add" =
      Except.ok [("a", JVal.num a), ("b", JVal.num b), ("operation", JVal.str "add"),
        ("result", JVal.num (a + b))] := by
  rw [calculate_eq]; rfl

theorem calc_sub_eq (a b : ℚ) :
    calculate a b "subtract" =
      Except.ok [("a", JVal.num a), ("b", JVal.num b), ("operation", JVal.str "subtract"),
        ("result", JVal.num (a - b))] := by
  rw [calculate_eq]; rfl

theorem calc_mul_eq (a b : ℚ) :
    calculate a b "multiply" =
      Except.ok [("a", JVal.num a), ("b", JVal.num b), ("operation", JVal.str "multiply"),
        ("result", JVal.num (a * b))] := by
  rw [calculate_eq]; rfl

theorem calc_div_zero_eq (a b : ℚ) (hb : b = 0) :
    calculate a b "divide" = Except.ok [("error", JVal.str "Division by zero")] := by
  subst hb; rfl

theorem calc_div_ne_eq (a b : ℚ) (hb : ¬b = 0) :
    calculate a b "divide" =
      Except.ok [("a", JVal.num a), ("b", JVal.num b), ("operation", JVal.str "divide"),
        ("result", JVal.num (a / b))] := by
  rw [calculate_eq]; simp [opsListQ, List.lookup, hb]

theorem calc_unknown_eq (a b : ℚ) (op : String) (h1 : ¬op = "add") (h2 : ¬op = "subtract")
    (h3 : ¬op = "multiply") (h4 : ¬op = "divide") :
    calculate a b op =
      Except.ok [("a", JVal.num a), ("b", JVal.num b), ("operation", JVal.str op),
        ("result", JVal.null)] := by
  have e1 : (op == "add") = false := beq_eq_false_iff_ne.mpr h1
  have e2 : (op == "subtract") = false := beq_eq_false_iff_ne.mpr h2
  have e3 : (op == "multiply") = false := beq_eq_false_iff_ne.mpr h3
  have e4 : (op == "divide") = false := beq_eq_false_iff_ne.mpr h4
  rw [calculate_eq]; simp [opsListQ, List.lookup, e1, e2, e3, e4, h4]

/-- Claim C1: for every pair of rationals `(a, b)` with operation `"divide"`,
`calculate` returns the `{"error": "Division by zero"}` payload if and only
if `b = 0`; otherwise it returns a calculation payload echoing `a`, `b`,
`"divide"` and `result = a / b`. -/
theorem calculate_divide_error_iff (a b : ℚ) :
    (calculate a b "divide" = Except.ok [("error", JVal.str "Division by zero")] ↔ b = 0) ∧
      (¬b = 0 →
        calculate a b "divide" =
          Except.ok [("a", JVal.num a), ("b", JVal.num b), ("operation", JVal.str "divide"),
            ("result", JVal.num (a / b))]) := by
  constructor
  · constructor
    · intro h
      by_contra hb
      rw [calc_div_ne_eq a b hb] at h
      injection h with h
      simp at h
    · intro hb; exact calc_div_zero_eq a b hb
  · intro hb; exact calc_div_ne_eq a b hb

theorem calculate_divide_error_iff_witness :
    calculate (5 : ℚ) 0 "divide" = Except.ok [("error", JVal.str "Division by zero")] ∧
      calculate (10 : ℚ) 2 "divide" =
        Except.ok [("a", JVal.num 10), ("b", JVal.num 2), ("operation", JVal.str "divide"),
          ("result", JVal.num (10 / 2))] :=
  ⟨(calculate_divide_error_iff 5 0).1.mpr rfl,
   (calculate_divide_error_iff 10 2).2 (by decide)⟩

/-- Claim C2: for every pair of rationals `(a, b)` and each of the
operations `"add"`, `"subtract"`, `"multiply"`, `calculate` returns a
calculation payload whose `result` is exactly `a + b`, `a - b`, `a * b`
respectively, with `a`, `b` and the operation echoed back. -/
theorem calculate_known_ops_exact (a b : ℚ) :
    calculate a b "add" =
        Except.ok [("a", JVal.num a), ("b", JVal.num b), ("operation", JVal.str "add"),
          ("result", JVal.num (a + b))] ∧
      calculate a b "subtract" =
        Except.ok [("a", JVal.num a), ("b", JVal.num b), ("operation", JVal.str "subtract"),
          ("result", JVal.num (a - b))] ∧
      calculate a b "multiply" =
        Except.ok [("a", JVal.num a), ("b", JVal.num b), ("operation", JVal.str "multiply"),
          ("result", JVal.num (a * b))] :=
  ⟨calc_add_eq a b, calc_sub_eq a b, calc_mul_eq a b⟩

/-- Claim C3: in every payload produced by `calculate`, the `result` field
holds a number if and only if the operation is one of the four known ones
and, for `"divide"`, the divisor is non-zero. -/
theorem calculate_result_present_iff (a b : ℚ) (op : String) (o : JObj ℚ)
    (h : calculate a b op = Except.ok o) :
    (∃ r : ℚ, List.lookup "result" o = some (JVal.num r)) ↔
      op ∈ ["add", "subtract", "multiply", "divide"] ∧ (op = "divide" → ¬b = 0) := by
  by_cases h1 : op = "add"
  · subst h1; rw [calc_add_eq] at h; injection h with h; subst h
    exact ⟨fun _ => ⟨by decide, fun hd => absurd hd (by decide)⟩, fun _ => ⟨a + b, rfl⟩⟩
  by_cases h2 : op = "subtract"
  · subst h2; rw [calc_sub_eq] at h; injection h with h; subst h
    exact ⟨fun _ => ⟨by decide, fun hd => absurd hd (by decide)⟩, fun _ => ⟨a - b, rfl⟩⟩
  by_cases h3 : op = "multiply"
  · subst h3; rw [calc_mul_eq] at h; injection h with h; subst h
    exact ⟨fun _ => ⟨by decide, fun hd => absurd hd (by decide)⟩, fun _ => ⟨a * b, rfl⟩⟩
  by_cases h4 : op = "divide"
  · subst h4
    by_cases hb : b = 0
    · rw [calc_div_zero_eq a b hb] at h; injection h with h; subst h
      constructor
      · rintro ⟨r, hr⟩; exact Option.noConfusion hr
      · rintro ⟨_, himp⟩; exact absurd hb (himp rfl)
    · rw [calc_div_ne_eq a b hb] at h; injection h with h; subst h
      exact ⟨fun _ => ⟨by decide, fun _ => hb⟩, fun _ => ⟨a / b, rfl⟩⟩
  · rw [calc_unknown_eq a b op h1 h2 h3 h4] at h; injection h with h; subst h
    constructor
    · rintro ⟨r, hr⟩
      have hr' : some (JVal.null : JVal ℚ) = some (JVal.num r) := hr
      injection hr' with hr'
      exact JVal.noConfusion hr'
    · rintro ⟨hmem, _⟩
      simp only [List.mem_cons, List.not_mem_nil, or_false] at hmem
      rcases hmem with h' | h' | h' | h' <;> contradiction

theorem calculate_result_present_iff_witness :
    ∃ r : ℚ,
      List.lookup "result"
        [("a", JVal.num (1 : ℚ)), ("b", JVal.num 2), ("operation", JVal.str "add"),
          ("result", JVal.num (1 + 2))] = some (JVal.num r) :=
  (calculate_result_present_iff 1 2 "add" _ rfl).mpr ⟨by decide, fun hd => absurd hd (by decide)⟩

/-- Claim C4: for every pair of rationals and every operation string
outside the known set of four, `calculate` does not return an error: it
echoes `a`, `b` and the operation, with a null `result`. -/
theorem calculate_unknown_op_echoes (a b : ℚ) (op : String)
    (h : op ∉ ["add", "subtract", "multiply", "divide"]) :
    calculate a b op =
      Except.ok [("a", JVal.num a), ("b", JVal.num b), ("operation", JVal.str op),
        ("result", JVal.null)] := by
  refine calc_unknown_eq a b op ?_ ?_ ?_ ?_ <;> intro he <;> exact h (by rw [he]; decide)

theorem calculate_unknown_op_echoes_witness :
    calculate (1 : ℚ) 2 "modulo" =
      Except.ok [("a", JVal.num 1), ("b", JVal.num 2), ("operation", JVal.str "modulo"),
        ("result", JVal.null)] :=
  calculate_unknown_op_echoes 1 2 "modulo" (by decide)

/-- Claim C5: calling `calculate` without an operation behaves exactly as
with operation `"add"`: the payload carries operation `"add"` and result
`a + b`. -/
theorem calculate_default_op_is_add (a b : ℚ) :
    calculate a b = calculate a b "add" ∧
      calculate a b =
        Except.ok [("a", JVal.num a), ("b", JVal.num b), ("operation", JVal.str "add"),
          ("result", JVal.num (a + b))] :=
  ⟨rfl, calc_add_eq a b⟩

/-- Claim C6: `calculate` eagerly builds a candidate for each of the four
known operations, the divide candidate is `none` (not an exception) when
`b = 0`, and for every operation string the handler returns a payload and
never raises. -/
theorem calculate_eager_guarded_total (a b : ℚ) :
    (∃ l, candidates a b = Except.ok l ∧
        List.lookup "add" l = some (some (a + b)) ∧
        List.lookup "subtract" l = some (some (a - b)) ∧
        List.lookup "multiply" l = some (some (a * b)) ∧
        List.lookup "divide" l = some (if b = 0 then none else some (a / b))) ∧
      ∀ op : String, ∃ o, calculate a b op = Except.ok o := by
  refine ⟨⟨opsListQ a b, candidates_eq a b, rfl, rfl, rfl, rfl⟩, fun op => ?_⟩
  rw [calculate_eq]
  by_cases hc : Option.join (List.lookup op (opsListQ a b)) = none ∧ op = "divide" ∧ b = 0
  · rw [if_pos hc]; exact ⟨_, rfl⟩
  · rw [if_neg hc]; exact ⟨_, rfl⟩

/-- Claim C7: `GET /` always returns the static payload
`{"service": "python-services", "status": "operational"}` and
`GET /health` always returns `{"status": "healthy",
"service": "python-services"}`, for any numeric carrier (the handlers take
no request data at all). -/
theorem root_health_static (F : Type) :
    root F = [("service", JVal.str "python-services"), ("status", JVal.str "operational")] ∧
      health_check F = [("status", JVal.str "healthy"), ("service", JVal.str "python-services")] :=
  ⟨rfl, rfl⟩

/-- Claim C8: the CORS allow-list is exactly the three localhost origins,
credentials are allowed, all methods and headers are accepted, and an
origin receives permissive CORS treatment exactly when it is in the
allow-list. -/
theorem cors_configuration :
    allow_origins = ["http://localhost:3000", "http://localhost:5173", "http://localhost:5174"] ∧
      allow_credentials = true ∧ allow_methods = ["*"] ∧ allow_headers = ["*"] ∧
      ∀ origin : String, corsPermissive origin = true ↔ origin ∈ allow_origins := by
  refine ⟨rfl, rfl, rfl, rfl, fun origin => ?_⟩
  simp [corsPermissive]

theorem cors_configuration_witness :
    corsPermissive "http://localhost:3000" = true ∧
      ¬corsPermissive "http://evil.example.com" = true :=
  ⟨(cors_configuration.2.2.2.2 "http://localhost:3000").mpr (by decide),
   fun hc =>
    (by decide : "http://evil.example.com" ∉ allow_origins)
      ((cors_configuration.2.2.2.2 "http://evil.example.com").mp hc)⟩

/-- Claim C9: every payload produced by `calculate` has exactly one of two
key sets: `["error"]` or `["a", "b", "operation", "result"]`, and no
payload ever contains both an `"error"` key and a `"result"` key. -/
theorem calculate_payload_shape (a b : ℚ) (op : String) (o : JObj ℚ)
    (h : calculate a b op = Except.ok o) :
    (List.map Prod.fst o = ["error"] ∨ List.map Prod.fst o = ["a", "b", "operation", "result"]) ∧
      ¬("error" ∈ List.map Prod.fst o ∧ "result" ∈ List.map Prod.fst o) := by
  rw [calculate_eq] at h
  by_cases hc : Option.join (List.lookup op (opsListQ a b)) = none ∧ op = "divide" ∧ b = 0
  · rw [if_pos hc] at h; injection h with h; subst h
    exact ⟨Or.inl rfl, by decide⟩
  · rw [if_neg hc] at h; injection h with h; subst h
    refine ⟨Or.inr rfl, ?_⟩
    rintro ⟨he, _⟩
    have he' : "error" ∈ (["a", "b", "operation", "result"] : List String) := he
    exact absurd he' (by decide)

theorem calculate_payload_shape_witness :
    (List.map Prod.fst [("error", (JVal.str "Division by zero" : JVal ℚ))] = ["error"] ∨
        List.map Prod.fst [("error", (JVal.str "Division by zero" : JVal ℚ))] =
          ["a", "b", "operation", "result"]) ∧
      ¬("error" ∈ List.map Prod.fst [("error", (JVal.str "Division by zero" : JVal ℚ))] ∧
          "result" ∈ List.map Prod.fst [("error", (JVal.str "Division by zero" : JVal ℚ))]) :=
  calculate_payload_shape 1 0 "divide" _ rfl

/-- Claim C10: dividing by `-0.0` returns the `{"error": "Division by
zero"}` payload, because the guard compares the divisor to zero with
Python float equality, under which `-0.0 == 0`; in the signed-zero model
`-0.0` is a value distinct from `0.0` that still satisfies `eqZero`. -/
theorem calculate_divide_neg_zero (a : SFloat) :
    calculate a negZeroF "divide" = Except.ok [("error", JVal.str "Division by zero")] ∧
      negZeroF ≠ posZeroF ∧ PyNum.eqZero negZeroF = true :=
  ⟨rfl, by decide, rfl⟩

end Keystone
